import Mathlib

/-
Verification of the Kinetic State Engine of the KineticVision repository.

Shallow embedding of the relevant source files:
  - src/types.ts                    : data model (ParticleState, ParticleShape)
  - src/constants.ts                : shape generator (Saturn branch, randomInSphere)
  - src/services (VisionService)    : landmark interpreter (processVideo, analyzeResult)
  - src/components (ParticleScene)  : state smoother and particle choreographer (useFrame)
  - src/App.tsx                     : prediction loop (predict) and gesture-to-shape policy

JavaScript numbers are modelled as real numbers; Math.random() draws are
modelled as explicitly injected draw parameters ranging over [0,1).
-/

namespace KineticVision

/-! ## Data model (src/types.ts) -/

/-- Rotation vector with independent x and y axes. -/
structure Vec2 where
  x : ℝ
  y : ℝ

/-- ParticleState from src/types.ts: the raw/smoothed control state. -/
structure ParticleState where
  expansion : ℝ
  tension : ℝ
  focus : ℝ
  rotation : Vec2

/-- ParticleShape enum from src/types.ts. -/
inductive ParticleShape where
  | HEART
  | FLOWER
  | SATURN
  | BUDDHA
  | FIREWORKS
deriving DecidableEq

/-! ## Shape generator (src/constants.ts) -/

/-- A 3D point. -/
structure Vec3 where
  x : ℝ
  y : ℝ
  z : ℝ

/-- randomInSphere from src/constants.ts: uniform-ball sampler driven by three
uniform draws u, v, w in [0,1).  theta = 2*pi*u, phi = acos(2v-1), r = cbrt(w). -/
noncomputable def randomInSphere (u v w : ℝ) : Vec3 :=
  let theta := 2 * Real.pi * u
  let phi := Real.arccos (2 * v - 1)
  let r := w ^ ((1 : ℝ) / 3)
  let sinPhi := Real.sin phi
  ⟨r * sinPhi * Real.cos theta, r * sinPhi * Real.sin theta, r * Real.cos phi⟩

/-- Saturn branch of generateParticles, before the tilt: the draw isRingDraw
decides ring versus planet (code: isRing = Math.random() > 0.4).  angleDraw,
distDraw, jitterDraw are the ring draws; ball stands for randomInSphere(). -/
noncomputable def saturnRaw (isRingDraw angleDraw distDraw jitterDraw : ℝ)
    (ball : Vec3) : Vec3 :=
  if isRingDraw > 0.4 then
    let angle := angleDraw * Real.pi * 2
    let dist := 3 + distDraw * (5 - 3)
    ⟨Real.cos angle * dist, (jitterDraw - 0.5) * 0.2, Real.sin angle * dist⟩
  else
    ⟨ball.x * 2, ball.y * 2, ball.z * 2⟩

/-- Fixed tilt by pi/6 applied to every Saturn point (rotation about the x axis,
mixing y and z, as in the source). -/
noncomputable def tiltSaturn (p : Vec3) : Vec3 :=
  let tilt := Real.pi / 6
  ⟨p.x, p.y * Real.cos tilt - p.z * Real.sin tilt,
   p.y * Real.sin tilt + p.z * Real.cos tilt⟩

/-- One full Saturn sample: branch on the ring draw, then tilt. -/
noncomputable def saturnSample (isRingDraw angleDraw distDraw jitterDraw : ℝ)
    (ball : Vec3) : Vec3 :=
  tiltSaturn (saturnRaw isRingDraw angleDraw distDraw jitterDraw ball)

/-- Subset of the uniform draw space [0,1) on which saturnRaw takes the planet
branch (the negation of isRingDraw > 0.4). -/
def saturnPlanetDraws : Set ℝ := {u : ℝ | u ∈ Set.Ico (0 : ℝ) 1 ∧ ¬ (u > 0.4)}

/-- Subset of the uniform draw space [0,1) on which saturnRaw takes the ring
branch. -/
def saturnRingDraws : Set ℝ := {u : ℝ | u ∈ Set.Ico (0 : ℝ) 1 ∧ u > 0.4}

/-! ## Landmark interpreter (VisionService) -/

/-- One normalized hand landmark. -/
structure Landmark where
  x : ℝ
  y : ℝ

/-- One detected hand: a fixed indexed family of landmarks (index 0 is the
wrist, index 9 the middle-finger base). -/
structure Hand where
  lm : ℕ → Landmark

/-- One ranked gesture classification. -/
structure GestureCategory where
  categoryName : String

/-- Recognizer result: per-hand landmarks and per-hand ranked gesture lists. -/
structure RecognizerResult where
  landmarks : List Hand
  gestures : List (List GestureCategory)

/-- Return type of processVideo / analyzeResult. -/
structure ProcessOutput where
  state : ParticleState
  gesture : String
  handsDetected : ℕ

def defaultLandmark : Landmark := ⟨0, 0⟩

def defaultHand : Hand := ⟨fun _ => defaultLandmark⟩

/-- Intermediate metrics extracted inside analyzeResult: expansion, centroid,
and raw hand size, branching on exactly-two-hands versus the else case. -/
noncomputable def extractMetrics (landmarks : List Hand) :
    ℝ × ℝ × ℝ × ℝ :=
  if landmarks.length = 2 then
    let leftWrist := (landmarks.getD 0 defaultHand).lm 0
    let rightWrist := (landmarks.getD 1 defaultHand).lm 0
    let dx := leftWrist.x - rightWrist.x
    let dy := leftWrist.y - rightWrist.y
    let dist := Real.sqrt (dx * dx + dy * dy)
    let expansion := max 0.2 (min 3.5 ((dist * 2.5) ^ (1.2 : ℝ)))
    let centroidX := (leftWrist.x + rightWrist.x) / 2
    let centroidY := (leftWrist.y + rightWrist.y) / 2
    let size1 := |((landmarks.getD 0 defaultHand).lm 0).y -
                  ((landmarks.getD 0 defaultHand).lm 9).y|
    let size2 := |((landmarks.getD 1 defaultHand).lm 0).y -
                  ((landmarks.getD 1 defaultHand).lm 9).y|
    (expansion, centroidX, centroidY, (size1 + size2) / 2)
  else
    let wrist := (landmarks.getD 0 defaultHand).lm 0
    let middleTip := (landmarks.getD 0 defaultHand).lm 9
    (1, wrist.x, wrist.y, |wrist.y - middleTip.y|)

/-- Focus bell curve applied to the deviation of the raw hand size from the
target size (the squared linear falloff from the source). -/
noncomputable def focusCurve (deviation : ℝ) : ℝ := (1 - deviation / 0.15) ^ 2

/-- analyzeResult from VisionService: maps a recognizer result and the frame
width to the raw control state, dominant gesture label and hand count. -/
noncomputable def analyzeResult (result : RecognizerResult) (frameWidth : ℝ) :
    ProcessOutput :=
  let landmarks := result.landmarks
  let gestures := result.gestures
  let handsDetected := landmarks.length
  if handsDetected > 0 then
    let dominantGesture :=
      match gestures with
      | (g :: _) :: _ => g.categoryName
      | _ => "None"
    let isFist := gestures.any fun handGestures =>
      handGestures.any fun g => g.categoryName = "Closed_Fist"
    let isOpen := gestures.any fun handGestures =>
      handGestures.any fun g => g.categoryName = "Open_Palm"
    let tension : ℝ := if isFist then 1 else if isOpen then 0.1 else 0.4
    let m := extractMetrics landmarks
    let expansion := m.1
    let centroidX := m.2.1
    let centroidY := m.2.2.1
    let rawHandSize := m.2.2.2
    let deviation := |rawHandSize - 0.25|
    let focus : ℝ := if deviation < 0.15 then focusCurve deviation else 0
    let rotY := (centroidX - 0.5) * (Real.pi / 1.5)
    let rotX := -(centroidY - 0.5) * (Real.pi / 1.5)
    ⟨⟨expansion, tension, focus, ⟨rotX, rotY⟩⟩, dominantGesture, handsDetected⟩
  else
    ⟨⟨1, 0, 0, ⟨0, 0⟩⟩, "No Hands", 0⟩

/-- Persisted state of the VisionService instance: whether the recognizer has
been created, and the last processed video timestamp. -/
structure VisionServiceState where
  recognizerLoaded : Bool
  lastVideoTime : ℚ

/-- Observable inputs of the video element read by processVideo. -/
structure VideoElement where
  videoWidth : ℕ
  readyState : ℕ
  currentTime : ℚ

/-- Outcome of calling recognizeForVideo on a fresh frame: a result, or a
thrown error. -/
inductive RecognizeOutcome where
  | ok (result : RecognizerResult)
  | err

/-- Neutral state returned by every soft-failure path of processVideo. -/
def neutralState : ParticleState := ⟨1, 0, 0.5, ⟨0, 0⟩⟩

/-- processVideo from VisionService, returning the output together with the
updated service state. -/
noncomputable def processVideo (svc : VisionServiceState) (video : VideoElement)
    (outcome : RecognizeOutcome) : ProcessOutput × VisionServiceState :=
  if svc.recognizerLoaded = false then
    (⟨neutralState, "Loading Model...", 0⟩, svc)
  else if video.videoWidth = 0 ∨ video.readyState < 2 then
    (⟨neutralState, "Waiting for Video...", 0⟩, svc)
  else if video.currentTime ≠ svc.lastVideoTime then
    let svc2 : VisionServiceState := { svc with lastVideoTime := video.currentTime }
    match outcome with
    | .ok result => (analyzeResult result (video.videoWidth : ℝ), svc2)
    | .err => (⟨neutralState, "Error", 0⟩, svc2)
  else
    (⟨neutralState, "None", 0⟩, svc)

/-! ## State smoother (ParticleScene useFrame, smoothing block) -/

/-- lerp from THREE.MathUtils: (1 - t) * x + t * y. -/
def lerp (x y t : ℝ) : ℝ := (1 - t) * x + t * y

/-- Smoothed animation values held in refs by the Particles component. -/
structure SmoothState where
  expansion : ℝ
  tension : ℝ
  focus : ℝ
  rotX : ℝ
  rotY : ℝ

/-- Smoothing block at the top of useFrame: every value is lerped toward its
raw counterpart with lerpSpeed = 4.0 * delta. -/
def advanceSmooth (cur : SmoothState) (raw : ParticleState) (delta : ℝ) :
    SmoothState :=
  let lerpSpeed := 4 * delta
  { expansion := lerp cur.expansion raw.expansion lerpSpeed
    tension := lerp cur.tension raw.tension lerpSpeed
    focus := lerp cur.focus raw.focus lerpSpeed
    rotX := lerp cur.rotX raw.rotation.x lerpSpeed
    rotY := lerp cur.rotY raw.rotation.y lerpSpeed }

/-! ## Particle choreographer (ParticleScene useFrame, per-particle loop) -/

/-- Step A: morph the persisted base position toward the target with
morphSpeed = 3.0 * delta. -/
def morphStep (base target : Vec3) (delta : ℝ) : Vec3 :=
  ⟨base.x + (target.x - base.x) * (3 * delta),
   base.y + (target.y - base.y) * (3 * delta),
   base.z + (target.z - base.z) * (3 * delta)⟩

/-- Step B: uniform expansion scaling from the origin. -/
def expandStep (expansion : ℝ) (p : Vec3) : Vec3 :=
  ⟨p.x * expansion, p.y * expansion, p.z * expansion⟩

/-- Step C: focus-driven scatter.  noiseFactor = (1 - focus) * 2; when above
the 0.01 threshold, add index-keyed sin/cos offsets (the z axis uses
sin(i * 41.7) with no time term). -/
noncomputable def scatterStep (i : ℕ) (time focus : ℝ) (p : Vec3) : Vec3 :=
  let noiseFactor := (1 - focus) * 2
  if noiseFactor > 0.01 then
    ⟨p.x + Real.sin (i * 13.2 + time) * noiseFactor,
     p.y + Real.cos (i * 25.1 + time) * noiseFactor,
     p.z + Real.sin (i * 41.7) * noiseFactor⟩
  else p

/-- Step D: tension jitter with fresh uniform draws in [0,1) per axis per
frame; active when jitter = tension * 0.15 exceeds 0.01. -/
noncomputable def jitterStep (tension : ℝ) (draw : Fin 3 → ℝ) (p : Vec3) : Vec3 :=
  let jitter := tension * 0.15
  if jitter > 0.01 then
    ⟨p.x + (draw 0 - 0.5) * jitter,
     p.y + (draw 1 - 0.5) * jitter,
     p.z + (draw 2 - 0.5) * jitter⟩
  else p

/-- Step E: breathing, a self-scaling perturbation suppressed by tension. -/
noncomputable def breathStep (i : ℕ) (time tension : ℝ) (p : Vec3) : Vec3 :=
  let breathing := Real.sin (time * 0.8 + i * 0.01) * 0.03 * (1 - tension)
  ⟨p.x + p.x * breathing, p.y + p.y * breathing, p.z + p.z * breathing⟩

/-- One particle of one useFrame tick: morph the persisted base position, then
apply expansion, scatter, jitter and breathing.  Returns the new base position
and the rendered position written to the geometry buffer (the container
rotation is applied outside the per-particle math). -/
noncomputable def particleFrame (i : ℕ) (base target : Vec3)
    (delta time expansion tension focus : ℝ) (draw : Fin 3 → ℝ) :
    Vec3 × Vec3 :=
  let nb := morphStep base target delta
  (nb, breathStep i time tension
        (jitterStep tension draw
          (scatterStep i time focus
            (expandStep expansion nb))))

/-- Render-time setup of the Particles component: the persisted base-position
buffer is filled from the targets only once, guarded by the initDone ref;
every later render (in particular a shape switch, which only swaps the
memoized target array) leaves the buffer untouched. -/
structure ParticlesComponent where
  initDone : Bool
  currentBasePositions : ℕ → Vec3

/-- Body of the initialization guard executed on every render. -/
def renderSetup (c : ParticlesComponent) (targetPositions : ℕ → Vec3) :
    ParticlesComponent :=
  if c.initDone = false then
    ⟨true, targetPositions⟩
  else c

/-! ## Prediction loop and shape policy (src/App.tsx) -/

/-- React state of the App component touched by the predict callback. -/
structure AppState where
  particleState : ParticleState
  shape : ParticleShape
  gesture : String
  handsVisible : ℕ
  audioState : Option ParticleState

/-- Gesture-to-shape switch from the predict callback. -/
def gestureToShape (g : String) (current : ParticleShape) : ParticleShape :=
  if g = "Victory" then ParticleShape.FLOWER
  else if g = "Thumb_Up" then ParticleShape.HEART
  else if g = "Pointing_Up" then ParticleShape.FIREWORKS
  else if g = "ILoveYou" then ParticleShape.BUDDHA
  else current

/-- State update performed by one predict tick, given the result returned by
processVideo: the updates run only when the gesture label passes the gate
(not None and not Waiting for Video...). -/
def predictUpdate (app : AppState) (result : ProcessOutput) : AppState :=
  if result.gesture ≠ "None" ∧ result.gesture ≠ "Waiting for Video..." then
    { particleState := result.state
      shape := gestureToShape result.gesture app.shape
      gesture := result.gesture
      handsVisible := result.handsDetected
      audioState := some result.state }
  else app

/-- Landmark coordinate hypothesis: every landmark of every detected hand has
normalized coordinates inside [0,1]. -/
def landmarksIn01 (result : RecognizerResult) : Prop :=
  ∀ hand ∈ result.landmarks, ∀ j : ℕ,
    0 ≤ (hand.lm j).x ∧ (hand.lm j).x ≤ 1 ∧
    0 ≤ (hand.lm j).y ∧ (hand.lm j).y ≤ 1

/-! ## Theorems -/

lemma lerp_mem_interval (c r t : ℝ) (h0 : 0 ≤ t) (h1 : t ≤ 1) :
    min c r ≤ lerp c r t ∧ lerp c r t ≤ max c r := by
  unfold lerp
  rcases le_total c r with h | h
  · rw [min_eq_left h, max_eq_right h]
    constructor <;> nlinarith
  · rw [min_eq_right h, max_eq_left h]
    constructor <;> nlinarith

/-- Claim C1 as stated is false on the code: the smoother has no min(1, k*dt)
clamp.  At current = 0, raw = 1, dt = 1/2 (so k*dt = 2) the code produces 2,
while the claimed formula gives 1, and the smoothed value overshoots past
raw = 1. -/
theorem C1_counterexample :
    (advanceSmooth ⟨0, 0, 0, 0, 0⟩ ⟨1, 0, 0, ⟨0, 0⟩⟩ (1 / 2)).expansion = 2
    ∧ (0 : ℝ) + (1 - 0) * min 1 (4 * (1 / 2)) = 1
    ∧ (2 : ℝ) ≠ 1
    ∧ (1 : ℝ) < (advanceSmooth ⟨0, 0, 0, 0, 0⟩ ⟨1, 0, 0, ⟨0, 0⟩⟩ (1 / 2)).expansion := by
  refine ⟨?_, by norm_num, by norm_num, ?_⟩ <;>
    simp [advanceSmooth, lerp] <;> norm_num

/-- Claim C1 (amended): every component of the smoothed state is advanced by
current + (raw - current) * (k * dt) with k = 4 and no clamp; consequently
the smoothed value stays between current and raw (no overshoot) whenever
0 <= dt and k * dt <= 1, but not in general. -/
theorem C1_smoother (cur : SmoothState) (raw : ParticleState) (delta : ℝ) :
    ((advanceSmooth cur raw delta).expansion
        = cur.expansion + (raw.expansion - cur.expansion) * (4 * delta)
      ∧ (advanceSmooth cur raw delta).tension
        = cur.tension + (raw.tension - cur.tension) * (4 * delta)
      ∧ (advanceSmooth cur raw delta).focus
        = cur.focus + (raw.focus - cur.focus) * (4 * delta)
      ∧ (advanceSmooth cur raw delta).rotX
        = cur.rotX + (raw.rotation.x - cur.rotX) * (4 * delta)
      ∧ (advanceSmooth cur raw delta).rotY
        = cur.rotY + (raw.rotation.y - cur.rotY) * (4 * delta))
    ∧ (0 ≤ delta → 4 * delta ≤ 1 →
        min cur.expansion raw.expansion ≤ (advanceSmooth cur raw delta).expansion
        ∧ (advanceSmooth cur raw delta).expansion
            ≤ max cur.expansion raw.expansion) := by
  constructor
  · refine ⟨?_, ?_, ?_, ?_, ?_⟩ <;> simp [advanceSmooth, lerp] <;> ring
  · intro h0 h1
    have h := lerp_mem_interval cur.expansion raw.expansion (4 * delta)
      (by linarith) h1
    exact h

/-- Witness for C1: at current = 0, raw = 1, dt = 1/8 (k*dt = 1/2 <= 1) the
smoothed expansion stays between 0 and 1. -/
theorem C1_witness :
    min (0 : ℝ) 1 ≤ (advanceSmooth ⟨0, 0, 0, 0, 0⟩ ⟨1, 0, 0, ⟨0, 0⟩⟩ (1 / 8)).expansion
    ∧ (advanceSmooth ⟨0, 0, 0, 0, 0⟩ ⟨1, 0, 0, ⟨0, 0⟩⟩ (1 / 8)).expansion ≤ max 0 1 := by
  exact (C1_smoother ⟨0, 0, 0, 0, 0⟩ ⟨1, 0, 0, ⟨0, 0⟩⟩ (1 / 8)).2
    (by norm_num) (by norm_num)

/-- Claim C2 as stated is false on the code in two ways: the sentinel state
carries focus = 0.5 (not 0), and the transient-error path does mutate the
persisted lastVideoTime (here from -1 to 5) before returning the sentinel. -/
theorem C2_counterexample :
    (processVideo ⟨false, -1⟩ ⟨640, 4, 0⟩ .err).1.state.focus = 1 / 2
    ∧ (1 / 2 : ℝ) ≠ 0
    ∧ (processVideo ⟨true, -1⟩ ⟨640, 4, 5⟩ .err).2.lastVideoTime = 5
    ∧ (5 : ℚ) ≠ -1 := by
  refine ⟨?_, by norm_num, ?_, by norm_num⟩ <;>
    simp [processVideo, neutralState] <;> norm_num

/-- Claim C2 (amended): every soft-failure path of processVideo returns the
neutral sentinel expansion = 1, tension = 0, focus = 0.5, rotation = (0,0)
with a diagnosable label; the loading, waiting and stale-frame paths leave the
interpreter state unchanged, while the recognizer-error path first updates
lastVideoTime to the current video time. -/
theorem C2_sentinels (svc : VisionServiceState) (video : VideoElement)
    (outcome : RecognizeOutcome) :
    (svc.recognizerLoaded = false →
      processVideo svc video outcome = (⟨neutralState, "Loading Model...", 0⟩, svc))
    ∧ (svc.recognizerLoaded = true →
      (video.videoWidth = 0 ∨ video.readyState < 2) →
      processVideo svc video outcome = (⟨neutralState, "Waiting for Video...", 0⟩, svc))
    ∧ (svc.recognizerLoaded = true → video.videoWidth ≠ 0 → 2 ≤ video.readyState →
      video.currentTime = svc.lastVideoTime →
      processVideo svc video outcome = (⟨neutralState, "None", 0⟩, svc))
    ∧ (svc.recognizerLoaded = true → video.videoWidth ≠ 0 → 2 ≤ video.readyState →
      video.currentTime ≠ svc.lastVideoTime →
      processVideo svc video .err
        = (⟨neutralState, "Error", 0⟩, ⟨true, video.currentTime⟩))
    ∧ neutralState = ⟨1, 0, 0.5, ⟨0, 0⟩⟩ := by
  refine ⟨?_, ?_, ?_, ?_, rfl⟩
  · intro h
    simp [processVideo, h]
  · intro h hw
    simp [processVideo, h, hw]
  · intro h hw hr ht
    have hnw : ¬ (video.videoWidth = 0 ∨ video.readyState < 2) := by omega
    simp [processVideo, h, hnw, ht]
  · intro h hw hr ht
    have hnw : ¬ (video.videoWidth = 0 ∨ video.readyState < 2) := by omega
    simp [processVideo, h, hnw, ht]

/-- Witness for C2: a stale frame (currentTime equal to lastVideoTime) returns
the None sentinel and leaves the service state unchanged. -/
theorem C2_witness :
    processVideo ⟨true, 3⟩ ⟨640, 4, 3⟩ .err = (⟨neutralState, "None", 0⟩, ⟨true, 3⟩) := by
  exact (C2_sentinels ⟨true, 3⟩ ⟨640, 4, 3⟩ .err).2.2.1 rfl
    (by norm_num) (by norm_num) rfl

/-- Claim C3 as stated is false on the code: the predict gate filters only the
None and Waiting labels, so the sentinel observation labelled Error is
propagated into the particle state, the audio engine and the displayed
gesture. -/
theorem C3_counterexample :
    (processVideo ⟨true, -1⟩ ⟨640, 4, 0⟩ .err).1.gesture = "Error"
    ∧ (predictUpdate ⟨⟨1, 0, 0, ⟨0, 0⟩⟩, ParticleShape.HEART, "Ready", 0, none⟩
        (processVideo ⟨true, -1⟩ ⟨640, 4, 0⟩ .err).1).particleState = neutralState
    ∧ (predictUpdate ⟨⟨1, 0, 0, ⟨0, 0⟩⟩, ParticleShape.HEART, "Ready", 0, none⟩
        (processVideo ⟨true, -1⟩ ⟨640, 4, 0⟩ .err).1).audioState = some neutralState
    ∧ (predictUpdate ⟨⟨1, 0, 0, ⟨0, 0⟩⟩, ParticleShape.HEART, "Ready", 0, none⟩
        (processVideo ⟨true, -1⟩ ⟨640, 4, 0⟩ .err).1).gesture = "Error"
    ∧ neutralState.focus ≠ (⟨1, 0, 0, ⟨0, 0⟩⟩ : ParticleState).focus := by
  have hpv : processVideo ⟨true, -1⟩ ⟨640, 4, 0⟩ .err
      = (⟨neutralState, "Error", 0⟩, ⟨true, 0⟩) := by
    simp [processVideo]
  refine ⟨by rw [hpv], ?_, ?_, ?_, ?_⟩
  · rw [hpv]; simp [predictUpdate]
  · rw [hpv]; simp [predictUpdate]
  · rw [hpv]; simp [predictUpdate]
  · simp [neutralState]; norm_num

/-- Claim C3 (amended): the predict tick updates the particle state, the audio
engine and the displayed gesture exactly when the returned label is neither
None nor Waiting for Video...; the sentinel labels Loading Model... and Error
are not filtered and do propagate. -/
theorem C3_gate (app : AppState) (result : ProcessOutput) :
    ((result.gesture = "None" ∨ result.gesture = "Waiting for Video...") →
      predictUpdate app result = app)
    ∧ (result.gesture ≠ "None" → result.gesture ≠ "Waiting for Video..." →
      (predictUpdate app result).particleState = result.state
      ∧ (predictUpdate app result).audioState = some result.state
      ∧ (predictUpdate app result).gesture = result.gesture
      ∧ (predictUpdate app result).handsVisible = result.handsDetected) := by
  constructor
  · intro h
    rcases h with h | h <;> simp [predictUpdate, h]
  · intro h1 h2
    simp [predictUpdate, h1, h2]

/-- Witness for C3: with the Error-labelled sentinel confirmed through the
gate, the particle state is overwritten by the sentinel state. -/
theorem C3_witness :
    (predictUpdate ⟨⟨1, 0, 0, ⟨0, 0⟩⟩, ParticleShape.HEART, "Ready", 0, none⟩
        ⟨neutralState, "Loading Model...", 0⟩).particleState = neutralState := by
  exact ((C3_gate ⟨⟨1, 0, 0, ⟨0, 0⟩⟩, ParticleShape.HEART, "Ready", 0, none⟩
    ⟨neutralState, "Loading Model...", 0⟩).2 (by decide) (by decide)).1

/-- Claim C10: the active shape changes only on the labels Victory (Flower),
Thumb_Up (Heart), Pointing_Up (Fireworks) and ILoveYou (Buddha); every other
label, including Open_Palm, Closed_Fist and No Hands, leaves it unchanged. -/
theorem C10_shape_policy (app : AppState) (result : ProcessOutput) :
    ((predictUpdate app result).shape ≠ app.shape →
      result.gesture = "Victory" ∨ result.gesture = "Thumb_Up"
      ∨ result.gesture = "Pointing_Up" ∨ result.gesture = "ILoveYou")
    ∧ (result.gesture = "Victory" →
        (predictUpdate app result).shape = ParticleShape.FLOWER)
    ∧ (result.gesture = "Thumb_Up" →
        (predictUpdate app result).shape = ParticleShape.HEART)
    ∧ (result.gesture = "Pointing_Up" →
        (predictUpdate app result).shape = ParticleShape.FIREWORKS)
    ∧ (result.gesture = "ILoveYou" →
        (predictUpdate app result).shape = ParticleShape.BUDDHA)
    ∧ (result.gesture = "Open_Palm" → (predictUpdate app result).shape = app.shape)
    ∧ (result.gesture = "Closed_Fist" → (predictUpdate app result).shape = app.shape)
    ∧ (result.gesture = "No Hands" → (predictUpdate app result).shape = app.shape) := by
  refine ⟨?_, ?_, ?_, ?_, ?_, ?_, ?_, ?_⟩
  · intro hne
    by_cases hg : result.gesture ≠ "None" ∧ result.gesture ≠ "Waiting for Video..."
    · rw [predictUpdate, if_pos hg] at hne
      simp only [] at hne
      unfold gestureToShape at hne
      split_ifs at hne with hv ht hp hl
      · exact Or.inl hv
      · exact Or.inr (Or.inl ht)
      · exact Or.inr (Or.inr (Or.inl hp))
      · exact Or.inr (Or.inr (Or.inr hl))
      · exact absurd rfl hne
    · rw [predictUpdate, if_neg hg] at hne
      exact absurd rfl hne
  all_goals intro h <;> simp [predictUpdate, gestureToShape, h]

/-- Witness for C10: a Victory-labelled observation switches the shape to
Flower. -/
theorem C10_witness :
    (predictUpdate ⟨neutralState, ParticleShape.HEART, "Ready", 0, none⟩
        ⟨neutralState, "Victory", 1⟩).shape = ParticleShape.FLOWER := by
  exact (C10_shape_policy ⟨neutralState, ParticleShape.HEART, "Ready", 0, none⟩
    ⟨neutralState, "Victory", 1⟩).2.1 rfl

lemma extractMetrics_two (hA hB : Hand) :
    extractMetrics [hA, hB]
      = (max 0.2 (min 3.5 ((Real.sqrt
            (((hA.lm 0).x - (hB.lm 0).x) * ((hA.lm 0).x - (hB.lm 0).x)
              + ((hA.lm 0).y - (hB.lm 0).y) * ((hA.lm 0).y - (hB.lm 0).y)) * 2.5)
            ^ (1.2 : ℝ))),
         ((hA.lm 0).x + (hB.lm 0).x) / 2,
         ((hA.lm 0).y + (hB.lm 0).y) / 2,
         (|(hA.lm 0).y - (hA.lm 9).y| + |(hB.lm 0).y - (hB.lm 9).y|) / 2) := by
  simp [extractMetrics]

lemma extractMetrics_one (h : Hand) :
    extractMetrics [h] = (1, (h.lm 0).x, (h.lm 0).y, |(h.lm 0).y - (h.lm 9).y|) := by
  simp [extractMetrics]

lemma analyzeResult_state_of_pos (result : RecognizerResult) (fw : ℝ)
    (h : 0 < result.landmarks.length) :
    (analyzeResult result fw).state
      = ⟨(extractMetrics result.landmarks).1,
         if result.gestures.any fun handGestures =>
              handGestures.any fun g => g.categoryName = "Closed_Fist" then 1
         else if result.gestures.any fun handGestures =>
              handGestures.any fun g => g.categoryName = "Open_Palm" then 0.1
         else 0.4,
         if |(extractMetrics result.landmarks).2.2.2 - 0.25| < 0.15
         then focusCurve |(extractMetrics result.landmarks).2.2.2 - 0.25| else 0,
         ⟨-((extractMetrics result.landmarks).2.2.1 - 0.5) * (Real.pi / 1.5),
          ((extractMetrics result.landmarks).2.1 - 0.5) * (Real.pi / 1.5)⟩⟩ := by
  simp [analyzeResult, h]

lemma extractMetrics_expansion_bounds (l : List Hand) :
    0.1 ≤ (extractMetrics l).1 ∧ (extractMetrics l).1 ≤ 3.5 := by
  unfold extractMetrics
  split_ifs with h
  · refine ⟨le_trans (by norm_num) (le_max_left _ _), max_le (by norm_num) (min_le_left _ _)⟩
  · norm_num

lemma extractMetrics_centroid_bounds (l : List Hand) (hne : 0 < l.length)
    (hb : ∀ hand ∈ l, ∀ j : ℕ,
      0 ≤ (hand.lm j).x ∧ (hand.lm j).x ≤ 1 ∧
      0 ≤ (hand.lm j).y ∧ (hand.lm j).y ≤ 1) :
    (0 ≤ (extractMetrics l).2.1 ∧ (extractMetrics l).2.1 ≤ 1)
    ∧ (0 ≤ (extractMetrics l).2.2.1 ∧ (extractMetrics l).2.2.1 ≤ 1) := by
  have h0mem : l.getD 0 defaultHand ∈ l := by
    rw [List.getD_eq_getElem l defaultHand hne]
    exact List.getElem_mem _
  unfold extractMetrics
  split_ifs with h2
  · have h1mem : l.getD 1 defaultHand ∈ l := by
      rw [List.getD_eq_getElem l defaultHand (by omega)]
      exact List.getElem_mem _
    obtain ⟨hx0, hx1, hy0, hy1⟩ := hb _ h0mem 0
    obtain ⟨hx0b, hx1b, hy0b, hy1b⟩ := hb _ h1mem 0
    exact ⟨⟨by linarith, by linarith⟩, ⟨by linarith, by linarith⟩⟩
  · obtain ⟨hx0, hx1, hy0, hy1⟩ := hb _ h0mem 0
    exact ⟨⟨hx0, hx1⟩, ⟨hy0, hy1⟩⟩

lemma focus_ite_bounds (dev : ℝ) (h0 : 0 ≤ dev) :
    0 ≤ (if dev < 0.15 then focusCurve dev else 0)
    ∧ (if dev < 0.15 then focusCurve dev else 0) ≤ 1 := by
  unfold focusCurve
  split_ifs with h
  · have hq0 : 0 ≤ dev / 0.15 := div_nonneg h0 (by norm_num)
    have hq1 : dev / 0.15 < 1 := by
      rw [div_lt_one (by norm_num)]; linarith
    constructor
    · positivity
    · nlinarith
  · norm_num

lemma rotComponent_bounds (c : ℝ) (h0 : 0 ≤ c) (h1 : c ≤ 1) :
    -Real.pi < (c - 0.5) * (Real.pi / 1.5)
    ∧ (c - 0.5) * (Real.pi / 1.5) < Real.pi := by
  have hp := Real.pi_pos
  have hm0 : 0 ≤ c * Real.pi := mul_nonneg h0 hp.le
  have hm1 : c * Real.pi ≤ 1 * Real.pi := mul_le_mul_of_nonneg_right h1 hp.le
  have key : (c - 0.5) * (Real.pi / 1.5) = (c * Real.pi) * (2 / 3) - Real.pi / 3 := by
    ring
  rw [key]
  constructor <;> linarith

/-- Claim C4: with exactly two hands the raw expansion is
clamp(0.2, 3.5, (d * 2.5)^1.2) for d the Euclidean wrist distance in
normalized frame coordinates; coincident wrists (d = 0) give 0.2; with
exactly one hand the expansion is fixed at 1 regardless of landmarks. -/
theorem C4_expansion (hA hB : Hand) (gs : List (List GestureCategory)) (fw : ℝ) :
    ((analyzeResult ⟨[hA, hB], gs⟩ fw).state.expansion
      = max 0.2 (min 3.5 ((Real.sqrt
          (((hA.lm 0).x - (hB.lm 0).x) * ((hA.lm 0).x - (hB.lm 0).x)
            + ((hA.lm 0).y - (hB.lm 0).y) * ((hA.lm 0).y - (hB.lm 0).y)) * 2.5)
          ^ (1.2 : ℝ))))
    ∧ (hA.lm 0 = hB.lm 0 → (analyzeResult ⟨[hA, hB], gs⟩ fw).state.expansion = 0.2)
    ∧ (∀ h : Hand, (analyzeResult ⟨[h], gs⟩ fw).state.expansion = 1) := by
  have hexp : (analyzeResult ⟨[hA, hB], gs⟩ fw).state.expansion
      = (extractMetrics [hA, hB]).1 := by
    rw [analyzeResult_state_of_pos _ fw (by simp)]
  refine ⟨?_, ?_, ?_⟩
  · rw [hexp, extractMetrics_two]
  · intro heq
    rw [hexp, extractMetrics_two, heq]
    rw [show ((hB.lm 0).x - (hB.lm 0).x) * ((hB.lm 0).x - (hB.lm 0).x)
          + ((hB.lm 0).y - (hB.lm 0).y) * ((hB.lm 0).y - (hB.lm 0).y) = 0 by ring]
    rw [Real.sqrt_zero, zero_mul, Real.zero_rpow (by norm_num)]
    norm_num
  · intro h
    rw [analyzeResult_state_of_pos _ fw (by simp), extractMetrics_one]

/-- Witness for C4: two hands with coincident wrists yield expansion 0.2. -/
theorem C4_witness :
    (analyzeResult ⟨[⟨fun _ => ⟨0.3, 0.4⟩⟩, ⟨fun _ => ⟨0.3, 0.4⟩⟩], []⟩ 640).state.expansion
      = 0.2 := by
  exact (C4_expansion ⟨fun _ => ⟨0.3, 0.4⟩⟩ ⟨fun _ => ⟨0.3, 0.4⟩⟩ [] 640).2.1 rfl

/-- Claim C5: with at least one hand the raw focus is (1 - deviation/0.15)^2
for deviation = |handSize - 0.25| when deviation < 0.15, and 0 otherwise;
focus is exactly 1 at hand size 0.25, exactly 0 from deviation 0.15 on, and
strictly decreasing in the deviation below 0.15; with no hands focus is 0. -/
theorem C5_focus (result : RecognizerResult) (fw : ℝ) :
    (0 < result.landmarks.length →
      (analyzeResult result fw).state.focus
        = if |(extractMetrics result.landmarks).2.2.2 - 0.25| < 0.15
          then focusCurve |(extractMetrics result.landmarks).2.2.2 - 0.25|
          else 0)
    ∧ (∀ h : Hand, (extractMetrics [h]).2.2.2 = |(h.lm 0).y - (h.lm 9).y|)
    ∧ (0 < result.landmarks.length →
        (extractMetrics result.landmarks).2.2.2 = 0.25 →
        (analyzeResult result fw).state.focus = 1)
    ∧ (0 < result.landmarks.length →
        0.15 ≤ |(extractMetrics result.landmarks).2.2.2 - 0.25| →
        (analyzeResult result fw).state.focus = 0)
    ∧ (∀ d1 d2 : ℝ, 0 ≤ d1 → d1 < d2 → d2 < 0.15 →
        focusCurve d2 < focusCurve d1)
    ∧ (result.landmarks = [] → (analyzeResult result fw).state.focus = 0) := by
  refine ⟨?_, ?_, ?_, ?_, ?_, ?_⟩
  · intro h
    rw [analyzeResult_state_of_pos result fw h]
  · intro h
    rw [extractMetrics_one]
  · intro h hs
    rw [analyzeResult_state_of_pos result fw h, hs]
    norm_num [focusCurve]
  · intro h hs
    rw [analyzeResult_state_of_pos result fw h]
    simp only []
    rw [if_neg (by linarith)]
  · intro d1 d2 h0 h12 h2
    unfold focusCurve
    have hq0 : 0 ≤ d1 / 0.15 := div_nonneg h0 (by norm_num)
    have hq12 : d1 / 0.15 < d2 / 0.15 := by
      rw [div_lt_div_iff₀ (by norm_num) (by norm_num)]
      linarith
    have hq2 : d2 / 0.15 < 1 := by
      rw [div_lt_one (by norm_num)]; linarith
    nlinarith
  · intro h
    simp [analyzeResult, h]

/-- Witness for C5: a single hand whose wrist-to-middle-base vertical distance
is exactly 0.25 yields focus exactly 1. -/
theorem C5_witness :
    (analyzeResult ⟨[⟨fun j => if j = 9 then ⟨0.5, 0.25⟩ else ⟨0.5, 0.5⟩⟩], []⟩
        640).state.focus = 1 := by
  refine (C5_focus _ 640).2.2.1 (by simp) ?_
  rw [extractMetrics_one]
  norm_num

/-- Claim C9: for any recognizer result whose landmarks lie in [0,1]^2, every
field of the raw control state is within its documented bound: expansion in
[0.1, 3.5], tension in [0, 1], focus in [0, 1], both rotation components
strictly inside (-pi, pi). -/
theorem C9_bounds (result : RecognizerResult) (fw : ℝ) (hb : landmarksIn01 result) :
    (0.1 ≤ (analyzeResult result fw).state.expansion
      ∧ (analyzeResult result fw).state.expansion ≤ 3.5)
    ∧ (0 ≤ (analyzeResult result fw).state.tension
      ∧ (analyzeResult result fw).state.tension ≤ 1)
    ∧ (0 ≤ (analyzeResult result fw).state.focus
      ∧ (analyzeResult result fw).state.focus ≤ 1)
    ∧ (-Real.pi < (analyzeResult result fw).state.rotation.x
      ∧ (analyzeResult result fw).state.rotation.x ≤ Real.pi)
    ∧ (-Real.pi < (analyzeResult result fw).state.rotation.y
      ∧ (analyzeResult result fw).state.rotation.y ≤ Real.pi) := by
  have hp := Real.pi_pos
  rcases Nat.eq_zero_or_pos result.landmarks.length with hz | hpos
  · have hnil : result.landmarks = [] := List.length_eq_zero.mp hz
    have hres : analyzeResult result fw = ⟨⟨1, 0, 0, ⟨0, 0⟩⟩, "No Hands", 0⟩ := by
      simp [analyzeResult, hnil]
    rw [hres]
    dsimp only
    refine ⟨⟨by norm_num, by norm_num⟩, ⟨by norm_num, by norm_num⟩,
      ⟨by norm_num, by norm_num⟩, ⟨by linarith, by linarith⟩,
      ⟨by linarith, by linarith⟩⟩
  · rw [analyzeResult_state_of_pos result fw hpos]
    obtain ⟨⟨hcx0, hcx1⟩, hcy0, hcy1⟩ :=
      extractMetrics_centroid_bounds result.landmarks hpos hb
    obtain ⟨hry0, hry1⟩ := rotComponent_bounds _ hcx0 hcx1
    obtain ⟨hrx0, hrx1⟩ := rotComponent_bounds _ hcy0 hcy1
    obtain ⟨hf0, hf1⟩ := focus_ite_bounds
      |(extractMetrics result.landmarks).2.2.2 - 0.25| (abs_nonneg _)
    refine ⟨extractMetrics_expansion_bounds _, ?_, ⟨hf0, hf1⟩, ?_, ?_⟩
    · constructor <;> (split_ifs <;> norm_num)
    · constructor
      · simp only []
        nlinarith
      · simp only []
        nlinarith
    · exact ⟨hry0, hry1.le⟩

/-- Witness for C9: a concrete one-hand result with all landmarks at (0.5,0.5)
satisfies every bound. -/
theorem C9_witness :
    (0.1 ≤ (analyzeResult ⟨[⟨fun _ => ⟨0.5, 0.5⟩⟩], []⟩ 640).state.expansion
      ∧ (analyzeResult ⟨[⟨fun _ => ⟨0.5, 0.5⟩⟩], []⟩ 640).state.expansion ≤ 3.5)
    ∧ (0 ≤ (analyzeResult ⟨[⟨fun _ => ⟨0.5, 0.5⟩⟩], []⟩ 640).state.tension
      ∧ (analyzeResult ⟨[⟨fun _ => ⟨0.5, 0.5⟩⟩], []⟩ 640).state.tension ≤ 1)
    ∧ (0 ≤ (analyzeResult ⟨[⟨fun _ => ⟨0.5, 0.5⟩⟩], []⟩ 640).state.focus
      ∧ (analyzeResult ⟨[⟨fun _ => ⟨0.5, 0.5⟩⟩], []⟩ 640).state.focus ≤ 1)
    ∧ (-Real.pi < (analyzeResult ⟨[⟨fun _ => ⟨0.5, 0.5⟩⟩], []⟩ 640).state.rotation.x
      ∧ (analyzeResult ⟨[⟨fun _ => ⟨0.5, 0.5⟩⟩], []⟩ 640).state.rotation.x ≤ Real.pi)
    ∧ (-Real.pi < (analyzeResult ⟨[⟨fun _ => ⟨0.5, 0.5⟩⟩], []⟩ 640).state.rotation.y
      ∧ (analyzeResult ⟨[⟨fun _ => ⟨0.5, 0.5⟩⟩], []⟩ 640).state.rotation.y ≤ Real.pi) := by
  apply C9_bounds
  intro hand hm j
  simp only [List.mem_singleton] at hm
  subst hm
  norm_num

lemma saturnPlanetDraws_eq : saturnPlanetDraws = Set.Icc 0 0.4 := by
  ext u
  simp only [saturnPlanetDraws, Set.mem_setOf_eq, Set.mem_Ico, Set.mem_Icc, not_lt]
  constructor
  · rintro ⟨⟨h0, _⟩, h2⟩
    exact ⟨h0, h2⟩
  · rintro ⟨h0, h2⟩
    exact ⟨⟨h0, by linarith⟩, h2⟩

lemma saturnRingDraws_eq : saturnRingDraws = Set.Ioo 0.4 1 := by
  ext u
  simp only [saturnRingDraws, Set.mem_setOf_eq, Set.mem_Ico, Set.mem_Ioo]
  constructor
  · rintro ⟨⟨_, h1⟩, h2⟩
    exact ⟨h2, h1⟩
  · rintro ⟨h2, h1⟩
    exact ⟨⟨by linarith, h1⟩, h2⟩

/-- Claim C6 as stated is false on the code: the draw condition
isRingDraw > 0.4 routes 60 percent of the uniform draw space to the ring and
only 40 percent to the planet, the opposite of the claimed 60 percent planet
and 40 percent ring split. -/
theorem C6_counterexample :
    MeasureTheory.volume saturnPlanetDraws = ENNReal.ofReal 0.4
    ∧ MeasureTheory.volume saturnRingDraws = ENNReal.ofReal 0.6
    ∧ ENNReal.ofReal 0.4 ≠ ENNReal.ofReal 0.6 := by
  refine ⟨?_, ?_, ?_⟩
  · rw [saturnPlanetDraws_eq, Real.volume_Icc]
    norm_num
  · rw [saturnRingDraws_eq, Real.volume_Ioo]
    norm_num
  · intro hcon
    rw [ENNReal.ofReal_eq_ofReal_iff (by norm_num) (by norm_num)] at hcon
    norm_num at hcon

/-- Claim C6 (amended): with probability 40 percent (draw in the measure-0.4
planet region) the sample is a uniform-ball point scaled to radius 2, and with
probability 60 percent a ring point with uniform angle, radius uniform in
[3,5] and vertical jitter within plus-minus 0.1; every point is then tilted by
the fixed pi/6 rotation. -/
theorem C6_saturn (u a dd j : ℝ) (ball : Vec3)
    (hd0 : 0 ≤ dd) (hd1 : dd < 1) (hj0 : 0 ≤ j) (hj1 : j < 1) :
    (¬ u > 0.4 →
      saturnSample u a dd j ball = tiltSaturn ⟨ball.x * 2, ball.y * 2, ball.z * 2⟩)
    ∧ (u > 0.4 →
      saturnSample u a dd j ball
        = tiltSaturn ⟨Real.cos (a * Real.pi * 2) * (3 + dd * (5 - 3)),
                      (j - 0.5) * 0.2,
                      Real.sin (a * Real.pi * 2) * (3 + dd * (5 - 3))⟩
      ∧ 3 ≤ 3 + dd * (5 - 3) ∧ 3 + dd * (5 - 3) < 5
      ∧ -0.1 ≤ (j - 0.5) * 0.2 ∧ (j - 0.5) * 0.2 < 0.1)
    ∧ (∀ p : Vec3, tiltSaturn p
        = ⟨p.x, p.y * Real.cos (Real.pi / 6) - p.z * Real.sin (Real.pi / 6),
           p.y * Real.sin (Real.pi / 6) + p.z * Real.cos (Real.pi / 6)⟩)
    ∧ MeasureTheory.volume saturnPlanetDraws = ENNReal.ofReal 0.4
    ∧ MeasureTheory.volume saturnRingDraws = ENNReal.ofReal 0.6 := by
  refine ⟨?_, ?_, ?_, ?_, ?_⟩
  · intro h
    simp only [saturnSample, saturnRaw]
    rw [if_neg h]
  · intro h
    refine ⟨?_, by linarith, by linarith, by linarith, by linarith⟩
    simp only [saturnSample, saturnRaw]
    rw [if_pos h]
  · intro p
    rfl
  · rw [saturnPlanetDraws_eq, Real.volume_Icc]
    norm_num
  · rw [saturnRingDraws_eq, Real.volume_Ioo]
    norm_num

/-- Witness for C6: a ring draw (u = 0.5 > 0.4) with angle draw 0, radius draw
0 and jitter draw 0.5 produces the tilted ring point. -/
theorem C6_witness :
    saturnSample 0.5 0 0 0.5 ⟨1, 1, 1⟩
      = tiltSaturn ⟨Real.cos (0 * Real.pi * 2) * (3 + 0 * (5 - 3)),
                    (0.5 - 0.5) * 0.2,
                    Real.sin (0 * Real.pi * 2) * (3 + 0 * (5 - 3))⟩ := by
  exact ((C6_saturn 0.5 0 0 0.5 ⟨1, 1, 1⟩ le_rfl (by norm_num) (by norm_num)
    (by norm_num)).2.1 (by norm_num)).1

/-- Claim C7 as stated is false on the code: the z-axis scatter offset is
sin(i * 41.7) * noiseFactor with no clock-time term, so it does not vary with
clock time; here the z offsets at the distinct times 0 and 1 coincide. -/
theorem C7_counterexample :
    (scatterStep 1 0 (1 / 2) ⟨0, 0, 0⟩).z = (scatterStep 1 1 (1 / 2) ⟨0, 0, 0⟩).z
    ∧ (0 : ℝ) ≠ 1 := by
  constructor
  · norm_num [scatterStep]
  · norm_num

/-- Claim C7 (amended): when noiseFactor = (1 - focus) * 2 exceeds the 0.01
threshold, the x and y axes receive sin/cos(index * constant + clockTime)
offsets scaled by noiseFactor, while the z axis receives the time-independent
offset sin(index * 41.7) * noiseFactor; all offsets are deterministic given
(index, clockTime, noiseFactor), and the effect vanishes as focus reaches 1. -/
theorem C7_scatter (i : ℕ) (t focus : ℝ) (p : Vec3) :
    ((1 - focus) * 2 > 0.01 →
      scatterStep i t focus p
        = ⟨p.x + Real.sin (i * 13.2 + t) * ((1 - focus) * 2),
           p.y + Real.cos (i * 25.1 + t) * ((1 - focus) * 2),
           p.z + Real.sin (i * 41.7) * ((1 - focus) * 2)⟩)
    ∧ (¬ (1 - focus) * 2 > 0.01 → scatterStep i t focus p = p)
    ∧ (∀ t2 : ℝ, (scatterStep i t focus p).z = (scatterStep i t2 focus p).z)
    ∧ scatterStep i t 1 p = p := by
  refine ⟨?_, ?_, ?_, ?_⟩
  · intro h
    simp only [scatterStep]
    rw [if_pos h]
  · intro h
    simp only [scatterStep]
    rw [if_neg h]
  · intro t2
    simp only [scatterStep]
    split_ifs <;> rfl
  · simp only [scatterStep]
    rw [if_neg (by norm_num)]

/-- Witness for C7: at index 0, time 0, focus 0 the scatter offsets are
applied on all three axes. -/
theorem C7_witness :
    scatterStep 0 0 0 ⟨0, 0, 0⟩
      = ⟨0 + Real.sin (((0 : ℕ) : ℝ) * 13.2 + 0) * ((1 - 0) * 2),
         0 + Real.cos (((0 : ℕ) : ℝ) * 25.1 + 0) * ((1 - 0) * 2),
         0 + Real.sin (((0 : ℕ) : ℝ) * 41.7) * ((1 - 0) * 2)⟩ := by
  exact (C7_scatter 0 0 0 ⟨0, 0, 0⟩).1 (by norm_num)

/-- Claim C8 as stated is false on the code in its rendered-jump bound: with
the base already at the new target (distance 0, so the claimed bound
morphRate * dt * distance is 0) and moderate focus, the time-varying scatter
still moves the rendered x coordinate between the last frame before the
switch (target (0.7,0,0), rendered x = 0) and the first frame after it
(target (0,0,0), rendered x > 0). -/
theorem C8_counterexample :
    (particleFrame 0 ⟨-0.3, 0, 0⟩ ⟨0.7, 0, 0⟩ 0.1 0 1 0 (1 / 2) (fun _ => 0)).1
      = ⟨0, 0, 0⟩
    ∧ (particleFrame 0 ⟨0, 0, 0⟩ ⟨0, 0, 0⟩ 0.1 0.1 1 0 (1 / 2) (fun _ => 0)).1
      = ⟨0, 0, 0⟩
    ∧ (particleFrame 0 ⟨-0.3, 0, 0⟩ ⟨0.7, 0, 0⟩ 0.1 0 1 0 (1 / 2) (fun _ => 0)).2.x = 0
    ∧ 0 < (particleFrame 0 ⟨0, 0, 0⟩ ⟨0, 0, 0⟩ 0.1 0.1 1 0 (1 / 2) (fun _ => 0)).2.x := by
  have hsin1 : 0 < Real.sin 0.1 := by
    apply Real.sin_pos_of_pos_of_lt_pi (by norm_num)
    linarith [Real.pi_gt_three]
  have hsin2 : -1 ≤ Real.sin 0.08 := Real.neg_one_le_sin 0.08
  refine ⟨?_, ?_, ?_, ?_⟩
  · norm_num [particleFrame, morphStep]
  · norm_num [particleFrame, morphStep]
  · norm_num [particleFrame, morphStep, expandStep, scatterStep, jitterStep,
      breathStep]
  · norm_num [particleFrame, morphStep, expandStep, scatterStep, jitterStep,
      breathStep]
    nlinarith

/-- Claim C8 (amended): a shape switch never resets the persisted base buffer
(renderSetup is the identity once initialized, only the target changes); on
the first frame each base coordinate moves by exactly morphRate * dt times its
distance to the new target; and relative to the same frame computed with the
old target, the switch changes each rendered coordinate by exactly
morphRate * dt times the target difference scaled by expansion and the
breathing factor — the frame-to-frame rendered jump itself is not bounded by
morphRate * dt times the distance to the target. -/
theorem C8_shape_switch (c : ParticlesComponent) (tp : ℕ → Vec3) (i : ℕ)
    (base T T2 : Vec3) (delta t e ten f : ℝ) (d : Fin 3 → ℝ) :
    (c.initDone = true → renderSetup c tp = c)
    ∧ ((particleFrame i base T2 delta t e ten f d).1.x - base.x
        = (T2.x - base.x) * (3 * delta)
      ∧ (particleFrame i base T2 delta t e ten f d).1.y - base.y
        = (T2.y - base.y) * (3 * delta)
      ∧ (particleFrame i base T2 delta t e ten f d).1.z - base.z
        = (T2.z - base.z) * (3 * delta))
    ∧ ((particleFrame i base T2 delta t e ten f d).2.x
        - (particleFrame i base T delta t e ten f d).2.x
        = (T2.x - T.x) * (3 * delta) * e
            * (1 + Real.sin (t * 0.8 + i * 0.01) * 0.03 * (1 - ten))
      ∧ (particleFrame i base T2 delta t e ten f d).2.y
        - (particleFrame i base T delta t e ten f d).2.y
        = (T2.y - T.y) * (3 * delta) * e
            * (1 + Real.sin (t * 0.8 + i * 0.01) * 0.03 * (1 - ten))
      ∧ (particleFrame i base T2 delta t e ten f d).2.z
        - (particleFrame i base T delta t e ten f d).2.z
        = (T2.z - T.z) * (3 * delta) * e
            * (1 + Real.sin (t * 0.8 + i * 0.01) * 0.03 * (1 - ten))) := by
  refine ⟨?_, ?_, ?_⟩
  · intro h
    simp [renderSetup, h]
  · refine ⟨?_, ?_, ?_⟩ <;>
      (simp only [particleFrame, morphStep]; ring)
  · refine ⟨?_, ?_, ?_⟩ <;>
      (simp only [particleFrame, morphStep, expandStep, scatterStep, jitterStep,
        breathStep]
       split_ifs <;> ring)

/-- Witness for C8: an initialized component is left untouched by a render
with a new target array. -/
theorem C8_witness :
    renderSetup ⟨true, fun _ => ⟨5, 5, 5⟩⟩ (fun _ => ⟨0, 0, 0⟩)
      = ⟨true, fun _ => ⟨5, 5, 5⟩⟩ := by
  exact (C8_shape_switch ⟨true, fun _ => ⟨5, 5, 5⟩⟩ (fun _ => ⟨0, 0, 0⟩) 0
    ⟨0, 0, 0⟩ ⟨0, 0, 0⟩ ⟨0, 0, 0⟩ 0 0 1 0 (1 / 2) (fun _ => 0)).1 rfl

end KineticVision
